import Mathlib

/-!
Verification development for the JARVIS voice front-end
(`JARVIS/voice/stt.py` and `JARVIS/voice/wake_word.py`).

The per-frame callbacks are shallowly embedded as pure step functions over
explicit state records; timestamps and amplitudes are rationals.  A stream
is a list of classified frames processed left to right with `List.foldl`.

`stt.py` — `SpeechToText._record_with_vad`:
  the inner `callback` closure mutates `frames`, `recording`,
  `silence_start`, `speech_start`, `start_time` and stops the stream by
  raising `sd.CallbackStop`.  `sttStep` mirrors it; raising `CallbackStop`
  is modelled by setting the `stop` field (tagged with which of the two
  `raise` sites fired: the hard duration cap or the silence timeout), and
  once `stop` is set the step ignores further frames, as the closed stream
  delivers none.

`wake_word.py` — `MultiWakeWordDetector`:
  `detectClaps` mirrors `_detect_claps`, `wakeIsSpeech` mirrors the
  `is_speech` computation of `_detect_phrase` (VAD result plus per-frame
  energy fallback), `detectPhrase` mirrors the counter logic of
  `_detect_phrase`, and `wakeStep` mirrors `_audio_callback` (cooldown
  gate, clap matcher first, then phrase matcher).  Invoking the consumer
  callback is modelled by appending a timestamped event to `events`.
-/

attribute [local semireducible] Rat.add Rat.sub Rat.mul Rat.inv

/-- Which of the two `raise sd.CallbackStop()` sites in
`_record_with_vad.callback` ended the stream: the hard duration cap
(`elapsed > max_duration`) or the silence timeout path. -/
inductive StopReason where
  | hard
  | soft
deriving DecidableEq, Repr

/-- Configuration of `SpeechToText` relevant to `_record_with_vad`:
`silence_timeout`, `min_speech_duration`, and the `max_duration` argument
(the caller may pass any `duration`; `self.max_duration = 30.0` is the
default). -/
structure SttCfg where
  silence_timeout : ℚ
  min_speech_duration : ℚ
  max_duration : ℚ
deriving DecidableEq, Repr

/-- Defaults set in `SpeechToText.__init__`: `silence_timeout = 2.0`,
`min_speech_duration = 0.5`, `max_duration = 30.0`. -/
def sttDefaultCfg : SttCfg := ⟨2, 1/2, 30⟩

/-- One classified frame delivered to `_record_with_vad.callback`: the
result of `self._is_speech(frame_bytes)` and the frame's timestamp
`current_time`. -/
structure SttFrame where
  is_speech : Bool
  time : ℚ
deriving DecidableEq, Repr

/-- The mutable state of `_record_with_vad`: the `frames` buffer (we keep
the timestamp of each appended frame), the `recording`, `silence_start`,
`speech_start`, `start_time` nonlocals, and whether/why the stream was
stopped. -/
structure SttState where
  frames : List ℚ
  recording : Bool
  silence_start : ℚ
  speech_start : ℚ
  start_time : ℚ
  stop : Option StopReason
deriving DecidableEq, Repr

/-- Initial values in `_record_with_vad`: empty buffer, `recording = False`,
all times `0.0`, stream open. -/
def sttInit : SttState := ⟨[], false, 0, 0, 0, none⟩

/-- One invocation of `_record_with_vad.callback` on a classified frame,
transcribed branch for branch from `stt.py` lines 155-203. -/
def sttStep (cfg : SttCfg) (s : SttState) (f : SttFrame) : SttState :=
  match s.stop with
  | some _ => s
  | none =>
    let st := if s.start_time = 0 then f.time else s.start_time
    if cfg.max_duration < f.time - st then
      { s with start_time := st, stop := some StopReason.hard }
    else if f.is_speech then
      if s.recording then
        { s with start_time := st, silence_start := f.time,
                 frames := s.frames ++ [f.time] }
      else
        { s with start_time := st, recording := true, speech_start := f.time,
                 silence_start := f.time, frames := s.frames ++ [f.time] }
    else if s.recording then
      if cfg.silence_timeout < f.time - s.silence_start then
        if cfg.min_speech_duration ≤ f.time - s.speech_start then
          { s with start_time := st, frames := s.frames ++ [f.time],
                   stop := some StopReason.soft }
        else
          { s with start_time := st, recording := false, frames := [] }
      else
        { s with start_time := st, frames := s.frames ++ [f.time] }
    else
      { s with start_time := st }

/-- A whole capture session (`_record_with_vad`) over a finite stream of
classified frames. -/
def sttRun (cfg : SttCfg) (l : List SttFrame) : SttState :=
  l.foldl (sttStep cfg) sttInit

/-- `SpeechToText._is_speech`: returns `False` when no VAD is installed,
the VAD verdict otherwise, and `False` (after logging) when the VAD call
raises.  A raising VAD call is modelled by `vadResult = none`. -/
def sttIsSpeech (vadAvailable : Bool) (vadResult : Option Bool) : Bool :=
  if vadAvailable then
    match vadResult with
    | some b => b
    | none => false
  else false

/-- A contiguous stream of frames: the sounddevice callback delivers one
frame every `δ` seconds (`frame_size / sample_rate`, 30 ms in `stt.py`),
so the `k`-th frame carries timestamp `t + k * δ`; the speech flags are
arbitrary. -/
def contig (t δ : ℚ) : List Bool → List SttFrame
  | [] => []
  | b :: bs => ⟨b, t⟩ :: contig (t + δ) δ bs

/-- A single 30 ms speech frame at t = 1 s followed by 30 ms silence frames:
frame `k` arrives at `1 + k * 0.03`. -/
def c1frames : List SttFrame := contig 1 (3/100) (true :: List.replicate 70 false)

/-- The capture configuration with a caller-supplied `duration` of 0.2 s
(`record_and_transcribe(duration=0.2)` passes it as `max_duration`). -/
def c2cfg : SttCfg := ⟨2, 1/2, 1/5⟩

/-- 90 ms of silence, then speech from t = 1.09 s onwards, contiguous 30 ms
frames starting at t = 1 s. -/
def c2frames : List SttFrame :=
  contig 1 (3/100) [false, false, false, true, true, true, true, true]

/-- A small configuration (`silence_timeout = min_speech_duration = 0.05`)
used to exhibit a soft stop on a three-frame stream. -/
def c2softCfg : SttCfg := ⟨1/20, 1/20, 30⟩

/-- Which pattern matcher produced a trigger event: the clap matcher
(`_trigger_detection("2 claps")`) or the sustained-speech matcher
(`_trigger_detection("voice phrase")`). -/
inductive TrigMethod where
  | claps
  | speech
deriving DecidableEq, Repr

/-- Configuration of `MultiWakeWordDetector` as set in `__init__`:
clap thresholds and windows, the cooldown, the energy threshold, the
consecutive-speech-frame minimum, plus whether a VAD was installed by
`_init_vad` (it is probed once at start-up, never per frame). -/
structure WakeCfg where
  clap_threshold : ℚ
  clap_min_duration : ℚ
  clap_max_duration : ℚ
  max_clap_gap : ℚ
  cooldown_duration : ℚ
  energy_threshold : ℚ
  min_speech_frames : ℕ
  vadAvailable : Bool
deriving DecidableEq, Repr

/-- The literal values from `MultiWakeWordDetector.__init__`:
`_clap_threshold = 0.25`, `_clap_min_duration = 0.05`,
`_clap_max_duration = 0.3`, `_max_clap_gap = 1.0`,
`_cooldown_duration = 3.0`, `_energy_threshold = 0.04`,
`_min_speech_frames = 10`, with a VAD successfully initialized. -/
def wakeDefaultCfg : WakeCfg := ⟨1/4, 1/20, 3/10, 1, 3, 1/25, 10, true⟩

/-- One audio chunk as seen by `_audio_callback`, reduced to the quantities
the detector actually reads: the `time.time()` timestamp, the peak
`np.max(np.abs(audio_data))`, the VAD verdict on the frame bytes
(`none` models the VAD call raising an exception), and the RMS energy of
the int16 samples (`np.sqrt(np.mean(audio_int16 ** 2))`). -/
structure WakeFrame where
  time : ℚ
  peak : ℚ
  vad : Option Bool
  energy : ℚ
deriving DecidableEq, Repr

/-- The clap-matcher state: `_in_clap`, `_clap_start_time`,
`_clap_history`. -/
structure ClapState where
  in_clap : Bool
  clap_start_time : ℚ
  clap_history : List ℚ
deriving DecidableEq, Repr

/-- Initial clap-matcher state from `__init__`. -/
def clapInit : ClapState := ⟨false, 0, []⟩

/-- `MultiWakeWordDetector._detect_claps` (lines 98-141), transcribed
branch for branch: a frame with `peak > clap_threshold` starts or
continues a clap span; the first frame at or below the threshold ends it;
a span whose duration lies in `[clap_min_duration, clap_max_duration]`
appends its end time to the history, the history is pruned to entries
strictly newer than `current_time - max_clap_gap`, and two surviving
entries fire the detection and clear the history. -/
def detectClaps (cfg : WakeCfg) (s : ClapState) (t peak : ℚ) :
    ClapState × Bool :=
  if cfg.clap_threshold < peak then
    if s.in_clap then (s, false)
    else ({ s with in_clap := true, clap_start_time := t }, false)
  else if s.in_clap then
    let d := t - s.clap_start_time
    if cfg.clap_min_duration ≤ d ∧ d ≤ cfg.clap_max_duration then
      let h := (s.clap_history ++ [t]).filter
        (fun u => decide (t - cfg.max_clap_gap < u))
      if 2 ≤ h.length then
        (⟨false, s.clap_start_time, []⟩, true)
      else
        (⟨false, s.clap_start_time, h⟩, false)
    else ({ s with in_clap := false }, false)
  else (s, false)

/-- The clap matcher run alone over a list of `(current_time, peak)`
pairs, returning the final state and how many times it fired. -/
def runClaps (cfg : WakeCfg) (s : ClapState) : List (ℚ × ℚ) → ClapState × ℕ
  | [] => (s, 0)
  | f :: l =>
    let r := detectClaps cfg s f.1 f.2
    let rest := runClaps cfg r.1 l
    (rest.1, (if r.2 then 1 else 0) + rest.2)

/-- The `is_speech` computation of `_detect_phrase` (lines 159-175):
start from the VAD verdict when a VAD is installed (`False` when the VAD
call raises, which `vad = none` models), and whenever that verdict is
`False` fall back to the per-frame energy test
`energy > energy_threshold * 32767`. -/
def wakeIsSpeech (cfg : WakeCfg) (vad : Option Bool) (energy : ℚ) : Bool :=
  let v : Bool :=
    if cfg.vadAvailable then
      match vad with
      | some b => b
      | none => false
    else false
  if v then true else decide (cfg.energy_threshold * 32767 < energy)

/-- The counter logic of `_detect_phrase` (lines 177-193): on a speech
frame both `_consecutive_speech_frames` and `_speech_frames` are
incremented and the matcher fires when the consecutive count has reached
`min_speech_frames` and the cumulative count has reached the hard-coded
threshold 20; on a non-speech frame both counters reset to 0.  Returns the
new counters and the fire flag. -/
def detectPhrase (cfg : WakeCfg) (consec cum : ℕ) (vad : Option Bool)
    (energy : ℚ) : ℕ × ℕ × Bool :=
  if wakeIsSpeech cfg vad energy then
    (consec + 1, cum + 1,
      decide (cfg.min_speech_frames ≤ consec + 1) && decide (20 ≤ cum + 1))
  else (0, 0, false)

/-- State of the whole detector as mutated by `_audio_callback`:
`_cooldown_end`, the clap-matcher state, the two speech counters, and the
trace of emitted trigger events (timestamp and method), newest last. -/
structure WakeState where
  cooldown_end : ℚ
  clap : ClapState
  consec : ℕ
  cum : ℕ
  events : List (ℚ × TrigMethod)
deriving DecidableEq, Repr

/-- Initial detector state from `__init__`: `_cooldown_end = 0.0`, clean
clap state, zero counters, no events emitted yet. -/
def wakeInit : WakeState := ⟨0, clapInit, 0, 0, []⟩

/-- One invocation of `_audio_callback` (lines 195-238) on a frame:
return unchanged while `current_time < _cooldown_end`; otherwise run the
clap matcher first and, when it fires, set the cooldown and emit a claps
event; otherwise run the phrase matcher and, when it fires, set the
cooldown, zero both counters and emit a speech event. -/
def wakeStep (cfg : WakeCfg) (s : WakeState) (f : WakeFrame) : WakeState :=
  if f.time < s.cooldown_end then s
  else
    let c := detectClaps cfg s.clap f.time f.peak
    if c.2 then
      { s with clap := c.1, cooldown_end := f.time + cfg.cooldown_duration,
               events := s.events ++ [(f.time, TrigMethod.claps)] }
    else
      let p := detectPhrase cfg s.consec s.cum f.vad f.energy
      if p.2.2 then
        { s with clap := c.1, cooldown_end := f.time + cfg.cooldown_duration,
                 consec := 0, cum := 0,
                 events := s.events ++ [(f.time, TrigMethod.speech)] }
      else
        { s with clap := c.1, consec := p.1, cum := p.2.1 }

/-- A whole detection session over a finite stream of frames. -/
def wakeRun (cfg : WakeCfg) (l : List WakeFrame) : WakeState :=
  l.foldl (wakeStep cfg) wakeInit

/-- Twenty consecutive classified-speech frames of 30 ms each (so 600 ms
of speech), quiet in amplitude (peak 0, below the clap threshold), first
frame at t = 1 s. -/
def c7frames : List WakeFrame :=
  (List.range 20).map (fun i => ⟨1 + (i : ℚ) * (3/100), 0, some true, 0⟩)

/-- Two qualifying clap spans (durations 0.1 s each) whose end times
1.1 s and 2.1 s are separated by exactly `max_clap_gap = 1.0` s, with no
other supra-threshold activity. -/
def c5exFrames : List (ℚ × ℚ) :=
  [(1, 2/5), (53/50, 2/5), (11/10, 1/10), (3/2, 1/10),
   (2, 2/5), (103/50, 2/5), (21/10, 1/10)]

set_option maxRecDepth 200000

theorem detectClaps_quiet (cfg : WakeCfg) (s : ClapState) (t p : ℚ)
    (hs : s.in_clap = false) (hp : p ≤ cfg.clap_threshold) :
    detectClaps cfg s t p = (s, false) := by
  unfold detectClaps
  rw [if_neg (not_lt.mpr hp), hs]
  simp

theorem runClaps_quiet (cfg : WakeCfg) :
    ∀ (l : List (ℚ × ℚ)) (s : ClapState), s.in_clap = false →
      (∀ f ∈ l, f.2 ≤ cfg.clap_threshold) → runClaps cfg s l = (s, 0)
  | [], _, _, _ => rfl
  | f :: l, s, hs, h => by
    have h1 := detectClaps_quiet cfg s f.1 f.2 hs (h f (List.mem_cons_self f l))
    have h2 := runClaps_quiet cfg l s hs (fun g hg => h g (List.mem_cons_of_mem f hg))
    simp [runClaps, h1, h2]

theorem detectClaps_loud_start (cfg : WakeCfg) (s : ClapState) (t p : ℚ)
    (hs : s.in_clap = false) (hp : cfg.clap_threshold < p) :
    detectClaps cfg s t p = ({ s with in_clap := true, clap_start_time := t }, false) := by
  unfold detectClaps
  rw [if_pos hp, hs]
  simp

theorem detectClaps_loud_cont (cfg : WakeCfg) (s : ClapState) (t p : ℚ)
    (hs : s.in_clap = true) (hp : cfg.clap_threshold < p) :
    detectClaps cfg s t p = (s, false) := by
  unfold detectClaps
  rw [if_pos hp, hs]
  simp

theorem runClaps_loud_cont (cfg : WakeCfg) :
    ∀ (l : List (ℚ × ℚ)) (s : ClapState), s.in_clap = true →
      (∀ f ∈ l, cfg.clap_threshold < f.2) → runClaps cfg s l = (s, 0)
  | [], _, _, _ => rfl
  | f :: l, s, hs, h => by
    have h1 := detectClaps_loud_cont cfg s f.1 f.2 hs (h f (List.mem_cons_self f l))
    have h2 := runClaps_loud_cont cfg l s hs (fun g hg => h g (List.mem_cons_of_mem f hg))
    simp [runClaps, h1, h2]

theorem runClaps_span (cfg : WakeCfg) (a : ℚ × ℚ) (arest : List (ℚ × ℚ))
    (s : ClapState) (hs : s.in_clap = false)
    (h : ∀ f ∈ a :: arest, cfg.clap_threshold < f.2) :
    runClaps cfg s (a :: arest) =
      ({ s with in_clap := true, clap_start_time := a.1 }, 0) := by
  have h1 := detectClaps_loud_start cfg s a.1 a.2 hs (h a (List.mem_cons_self a arest))
  have h2 := runClaps_loud_cont cfg arest
    { s with in_clap := true, clap_start_time := a.1 } rfl
    (fun g hg => h g (List.mem_cons_of_mem a hg))
  simp [runClaps, h1, h2]

theorem detectClaps_end_first (cfg : WakeCfg) (s : ClapState) (t p : ℚ)
    (hs : s.in_clap = true) (hh : s.clap_history = [])
    (hp : p ≤ cfg.clap_threshold)
    (hd1 : cfg.clap_min_duration ≤ t - s.clap_start_time)
    (hd2 : t - s.clap_start_time ≤ cfg.clap_max_duration)
    (hgap0 : 0 < cfg.max_clap_gap) :
    detectClaps cfg s t p = (⟨false, s.clap_start_time, [t]⟩, false) := by
  unfold detectClaps
  rw [if_neg (not_lt.mpr hp), hs, hh]
  have hself : t - cfg.max_clap_gap < t := by linarith
  simp [hd1, hd2, hself]

theorem detectClaps_end_second (cfg : WakeCfg) (s : ClapState) (t p e₁ : ℚ)
    (hs : s.in_clap = true) (hh : s.clap_history = [e₁])
    (hp : p ≤ cfg.clap_threshold)
    (hd1 : cfg.clap_min_duration ≤ t - s.clap_start_time)
    (hd2 : t - s.clap_start_time ≤ cfg.clap_max_duration)
    (hgap0 : 0 < cfg.max_clap_gap) (hgap : t - cfg.max_clap_gap < e₁) :
    detectClaps cfg s t p = (⟨false, s.clap_start_time, []⟩, true) := by
  unfold detectClaps
  rw [if_neg (not_lt.mpr hp), hs, hh]
  have hself : t - cfg.max_clap_gap < t := by linarith
  simp [hd1, hd2, hself, hgap]

theorem detectClaps_end_nofire (cfg : WakeCfg) (s : ClapState) (t p : ℚ)
    (hs : s.in_clap = true) (hh : s.clap_history = [])
    (hp : p ≤ cfg.clap_threshold) :
    (detectClaps cfg s t p).2 = false := by
  unfold detectClaps
  rw [if_neg (not_lt.mpr hp), hs, hh]
  have hlen : ([t].filter (fun u => decide (t - cfg.max_clap_gap < u))).length ≤ 1 :=
    le_trans (List.length_filter_le _ _) (by simp)
  by_cases hd : cfg.clap_min_duration ≤ t - s.clap_start_time ∧
      t - s.clap_start_time ≤ cfg.clap_max_duration
  · simp only [if_true, eq_self_iff_true, List.nil_append, hd, and_self]
    rw [if_neg (by omega)]
  · simp only [eq_self_iff_true, if_true, List.nil_append, hd, if_false]

theorem runClaps_append (cfg : WakeCfg) :
    ∀ (l₁ l₂ : List (ℚ × ℚ)) (s : ClapState),
      runClaps cfg s (l₁ ++ l₂) =
        ((runClaps cfg (runClaps cfg s l₁).1 l₂).1,
         (runClaps cfg s l₁).2 + (runClaps cfg (runClaps cfg s l₁).1 l₂).2)
  | [], l₂, s => by simp [runClaps]
  | f :: l₁, l₂, s => by
    simp [runClaps, runClaps_append cfg l₁ l₂, Nat.add_assoc]

theorem runClaps_single (cfg : WakeCfg) (f : ℚ × ℚ) (s : ClapState) :
    runClaps cfg s [f] =
      ((detectClaps cfg s f.1 f.2).1,
       if (detectClaps cfg s f.1 f.2).2 then 1 else 0) := by
  simp [runClaps]

/-- Claim C9: for every frame sequence whose peak amplitude never exceeds
`clap_threshold`, the clap matcher never fires and the clap history stays
empty (the whole clap state is untouched). -/
theorem c9_quiet_never_fires (cfg : WakeCfg) (l : List (ℚ × ℚ))
    (h : ∀ f ∈ l, f.2 ≤ cfg.clap_threshold) :
    runClaps cfg clapInit l = (clapInit, 0) :=
  runClaps_quiet cfg l clapInit rfl h

/-- Witness for C9: a concrete all-quiet stream (peaks 0.1 and exactly
0.25) leaves the clap matcher in its initial state with zero fires. -/
theorem c9_quiet_never_fires_witness :
    runClaps wakeDefaultCfg clapInit [(1, 1/10), (2, 1/4)] = (clapInit, 0) :=
  c9_quiet_never_fires wakeDefaultCfg [(1, 1/10), (2, 1/4)] (by decide)

/-- Claim C4 is false on the code (counterexample): a frame the VAD
classifies as non-speech (`some false`) whose int16 RMS energy 2000
exceeds `energy_threshold * 32767 = 1310.68` is still treated as speech,
because `_detect_phrase` falls back to the energy test on every frame on
which the VAD verdict is `False`. -/
theorem c4_energy_overrides_vad :
    wakeDefaultCfg.energy_threshold * 32767 < 2000 ∧
    wakeIsSpeech wakeDefaultCfg (some false) 2000 = true := by decide

/-- Claim C4 (amended): `is_speech` is true exactly when the VAD is
available and classifies the frame as speech, or the frame's int16 RMS
energy exceeds `energy_threshold * 32767`; the energy fallback is applied
per frame whenever the VAD verdict is not speech (including when the VAD
is absent or its call raises). -/
theorem c4_amended (cfg : WakeCfg) (vad : Option Bool) (energy : ℚ) :
    wakeIsSpeech cfg vad energy = true ↔
      ((cfg.vadAvailable = true ∧ vad = some true) ∨
        cfg.energy_threshold * 32767 < energy) := by
  unfold wakeIsSpeech
  cases vad with
  | none => cases h : cfg.vadAvailable <;> simp [h]
  | some b => cases b <;> cases h : cfg.vadAvailable <;> simp [h]

/-- Claim C8 is false on the wake-word path (counterexample): a frame on
which the VAD call raises (`vad = none`) but whose energy 2000 exceeds the
scaled threshold is treated as speech by `_detect_phrase` — both counters
are incremented — rather than as non-speech. -/
theorem c8_vad_error_still_speech :
    detectPhrase wakeDefaultCfg 0 0 none 2000 = (1, 1, false) := by decide

/-- Claim C8 (amended): when the VAD call raises, no exception escapes
and the VAD verdict is taken as `False`; in the utterance capturer
(`SpeechToText._is_speech`) the frame is then treated as non-speech, while
in the trigger detector (`_detect_phrase`) the erroring frame is processed
exactly like a frame the VAD classified as non-speech: the per-frame
energy fallback still applies, and processing continues. -/
theorem c8_amended :
    (∀ va : Bool, sttIsSpeech va none = false) ∧
    (∀ (cfg : WakeCfg) (energy : ℚ),
      wakeIsSpeech cfg none energy = wakeIsSpeech cfg (some false) energy) ∧
    (∀ (cfg : WakeCfg) (consec cum : ℕ) (energy : ℚ),
      detectPhrase cfg consec cum none energy =
        detectPhrase cfg consec cum (some false) energy) := by
  have hw : ∀ (cfg : WakeCfg) (energy : ℚ),
      wakeIsSpeech cfg none energy = wakeIsSpeech cfg (some false) energy := by
    intro cfg e
    unfold wakeIsSpeech
    cases h : cfg.vadAvailable <;> simp [h]
  refine ⟨fun va => by cases va <;> rfl, hw, fun cfg c n e => ?_⟩
  unfold detectPhrase
  rw [hw]

/-- Claim C1 is a code bug (evaluation at the failing input): a single
30 ms speech frame at t = 1 s followed by contiguous silence makes
`_record_with_vad` stop at t = 3.01 s on the silence-timeout path and
return a non-empty 68-frame buffer, because the code evaluates
`speech_duration = current_time - speech_start = 2.01 s` (including the
silent tail) instead of the 0.03 s of actual speech, so the
`min_speech_duration` rejection never happens. -/
theorem c1_short_burst_returned :
    (sttRun sttDefaultCfg c1frames).stop = some StopReason.soft ∧
    (sttRun sttDefaultCfg c1frames).frames.length = 68 := by decide

/-- Claim C2 is false on the code (counterexample): with a caller-supplied
`max_duration = 0.2` s, speech starting at t = 1.09 s is cut off by the
hard stop at t = 1.21 s and the four accumulated frames (0.12 s of audio,
less than `min_speech_duration = 0.5` s and not empty) are returned to the
caller — the hard-stop path applies no minimum-duration rule. -/
theorem c2_hard_stop_short :
    (sttRun c2cfg c2frames).stop = some StopReason.hard ∧
    ¬(((sttRun c2cfg c2frames).frames.length : ℚ) * (3/100) = 0 ∨
      c2cfg.min_speech_duration ≤
        ((sttRun c2cfg c2frames).frames.length : ℚ) * (3/100)) := by decide

theorem sttStep_start_time (cfg : SttCfg) (s : SttState) (f : SttFrame)
    (h : s.start_time ≠ 0) : (sttStep cfg s f).start_time = s.start_time := by
  unfold sttStep
  cases hs : s.stop with
  | some r => rfl
  | none =>
    simp only [if_neg h]
    split_ifs <;> rfl

theorem sttStep_frames_bound (cfg : SttCfg) (s : SttState) (f : SttFrame)
    (h : s.start_time ≠ 0)
    (hb : ∀ t ∈ s.frames, t ≤ s.start_time + cfg.max_duration) :
    ∀ t ∈ (sttStep cfg s f).frames, t ≤ s.start_time + cfg.max_duration := by
  unfold sttStep
  cases hs : s.stop with
  | some r => exact hb
  | none =>
    simp only [if_neg h]
    split_ifs with h1 h2 h3 h4 h5 h6
    · exact hb
    · intro t ht
      rcases List.mem_append.mp ht with ht | ht
      · exact hb t ht
      · rw [List.mem_singleton.mp ht]; linarith [not_lt.mp h1]
    · intro t ht
      rcases List.mem_append.mp ht with ht | ht
      · exact hb t ht
      · rw [List.mem_singleton.mp ht]; linarith [not_lt.mp h1]
    · intro t ht
      rcases List.mem_append.mp ht with ht | ht
      · exact hb t ht
      · rw [List.mem_singleton.mp ht]; linarith [not_lt.mp h1]
    · intro t ht; exact absurd ht (List.not_mem_nil t)
    · intro t ht
      rcases List.mem_append.mp ht with ht | ht
      · exact hb t ht
      · rw [List.mem_singleton.mp ht]; linarith [not_lt.mp h1]
    · exact hb

theorem sttFold_bound (cfg : SttCfg) :
    ∀ (l : List SttFrame) (s : SttState), s.start_time ≠ 0 →
      (∀ t ∈ s.frames, t ≤ s.start_time + cfg.max_duration) →
      ∀ t ∈ (l.foldl (sttStep cfg) s).frames, t ≤ s.start_time + cfg.max_duration
  | [], s, _, hb => hb
  | f :: l, s, h, hb => by
    have h1 := sttStep_start_time cfg s f h
    have h2 := sttFold_bound cfg l (sttStep cfg s f)
      (by rw [h1]; exact h)
      (by rw [h1]; exact sttStep_frames_bound cfg s f h hb)
    rw [h1] at h2
    simpa [List.foldl_cons] using h2

theorem sttFirstStep_start (cfg : SttCfg) (f : SttFrame) :
    (sttStep cfg sttInit f).start_time = f.time := by
  unfold sttStep sttInit
  simp only []
  split_ifs <;> rfl

theorem sttFirstStep_bound (cfg : SttCfg) (f : SttFrame) :
    ∀ t ∈ (sttStep cfg sttInit f).frames, t ≤ f.time + cfg.max_duration := by
  have h : sttStep cfg sttInit f =
      if cfg.max_duration < f.time - f.time then
        { sttInit with start_time := f.time, stop := some StopReason.hard }
      else if f.is_speech then
        { sttInit with
            start_time := f.time, recording := true, speech_start := f.time,
            silence_start := f.time, frames := [f.time] }
      else { sttInit with start_time := f.time } := by
    unfold sttStep sttInit
    simp
  rw [h]
  split_ifs with h1 h2 <;> intro t ht
  · exact absurd ht (List.not_mem_nil t)
  · rw [List.mem_singleton.mp ht]; linarith [not_lt.mp h1]
  · exact absurd ht (List.not_mem_nil t)

/-- Claim C6: recording stops at or before `stream_start_time +
max_duration` — for any stream whose first frame arrives at a nonzero
wall-clock time (the code uses `start_time == 0.0` as the "unset"
sentinel), no frame with timestamp beyond the first frame's timestamp plus
`max_duration` is ever in the returned buffer. -/
theorem c6_hard_cap (cfg : SttCfg) (f0 : SttFrame) (rest : List SttFrame)
    (h0 : f0.time ≠ 0) :
    ∀ t ∈ (sttRun cfg (f0 :: rest)).frames, t ≤ f0.time + cfg.max_duration := by
  have h1 := sttFirstStep_start cfg f0
  have h2 := sttFold_bound cfg rest (sttStep cfg sttInit f0)
    (by rw [h1]; exact h0)
    (by rw [h1]; exact sttFirstStep_bound cfg f0)
  rw [h1] at h2
  simpa [sttRun, List.foldl_cons] using h2

/-- Witness for C6: in a concrete two-frame recording starting at t = 1 s
the buffered frame at t = 1.03 s is within the 30 s cap. -/
theorem c6_hard_cap_witness : (103/100 : ℚ) ≤ 1 + sttDefaultCfg.max_duration :=
  c6_hard_cap sttDefaultCfg ⟨true, 1⟩ [⟨true, 103/100⟩] (by norm_num)
    (103/100) (by decide)

theorem sttStep_soft_inv (cfg : SttCfg) (δ : ℚ) (hδ : 0 < δ) (s : SttState)
    (f : SttFrame)
    (hQ : s.stop = some StopReason.soft →
      cfg.min_speech_duration ≤ (s.frames.length : ℚ) * δ)
    (hP : s.stop = none → s.recording = true →
      f.time - s.speech_start ≤ (s.frames.length : ℚ) * δ) :
    ((sttStep cfg s f).stop = some StopReason.soft →
      cfg.min_speech_duration ≤ ((sttStep cfg s f).frames.length : ℚ) * δ) ∧
    ((sttStep cfg s f).stop = none → (sttStep cfg s f).recording = true →
      (f.time + δ) - (sttStep cfg s f).speech_start ≤
        ((sttStep cfg s f).frames.length : ℚ) * δ) := by
  have hn : (0 : ℚ) ≤ (s.frames.length : ℚ) := Nat.cast_nonneg _
  unfold sttStep
  cases hs : s.stop with
  | some r =>
    exact ⟨fun h => hQ h, fun h => Option.noConfusion (hs.symm.trans h)⟩
  | none =>
    simp only [hs]
    generalize (if s.start_time = 0 then f.time else s.start_time) = st
    split_ifs with h1 h2 h3 h4 h5 h6
    · -- hard stop
      refine ⟨fun h => ?_, fun h => ?_⟩
      · simp at h
      · exact h.elim
    · -- speech frame while recording
      refine ⟨fun h => ?_, fun _ _ => ?_⟩
      · exact h.elim
      · have := hP hs h3
        simp only [List.length_append, List.length_singleton]
        push_cast
        linarith
    · -- speech frame, recording starts
      refine ⟨fun h => ?_, fun _ _ => ?_⟩
      · exact h.elim
      · simp only [List.length_append, List.length_singleton]
        push_cast
        nlinarith
    · -- silence timeout, enough duration: soft stop
      refine ⟨fun _ => ?_, fun h => ?_⟩
      · have := hP hs h4
        simp only [List.length_append, List.length_singleton]
        push_cast
        linarith
      · exact h.elim
    · -- silence timeout, not enough: reset
      refine ⟨fun h => ?_, fun _ h => ?_⟩
      · exact h.elim
      · exact h.elim
    · -- silence during recording, no timeout yet
      refine ⟨fun h => ?_, fun _ _ => ?_⟩
      · exact h.elim
      · have := hP hs h4
        simp only [List.length_append, List.length_singleton]
        push_cast
        linarith
    · -- silence while idle
      refine ⟨fun h => ?_, fun _ h => ?_⟩
      · exact h.elim
      · exact absurd h h4

theorem sttFold_soft_inv (cfg : SttCfg) (δ : ℚ) (hδ : 0 < δ) :
    ∀ (bs : List Bool) (t : ℚ) (s : SttState),
      (s.stop = some StopReason.soft →
        cfg.min_speech_duration ≤ (s.frames.length : ℚ) * δ) →
      (s.stop = none → s.recording = true →
        t - s.speech_start ≤ (s.frames.length : ℚ) * δ) →
      ((contig t δ bs).foldl (sttStep cfg) s).stop = some StopReason.soft →
        cfg.min_speech_duration ≤
          ((((contig t δ bs).foldl (sttStep cfg) s).frames.length : ℚ) * δ)
  | [], _, _, hQ, _ => hQ
  | b :: bs, t, s, hQ, hP => by
    have h := sttStep_soft_inv cfg δ hδ s ⟨b, t⟩ hQ hP
    simpa [contig, List.foldl_cons] using
      sttFold_soft_inv cfg δ hδ bs (t + δ) (sttStep cfg s ⟨b, t⟩) h.1 h.2

/-- Claim C2 (amended): on the soft-stop path the minimum-duration rule
does hold — for any contiguous stream of frames `δ > 0` seconds apart, if
the capture ends on the silence-timeout stop, the returned buffer holds at
least `min_speech_duration / δ` frames, i.e. audio of duration at least
`min_speech_duration`.  (The hard stop at `max_duration` carries no such
rule; see the counterexample.) -/
theorem c2_soft_stop_min (cfg : SttCfg) (t0 δ : ℚ) (bs : List Bool)
    (hδ : 0 < δ)
    (hstop : (sttRun cfg (contig t0 δ bs)).stop = some StopReason.soft) :
    cfg.min_speech_duration ≤
      ((sttRun cfg (contig t0 δ bs)).frames.length : ℚ) * δ :=
  sttFold_soft_inv cfg δ hδ bs t0 sttInit
    (fun h => Option.noConfusion h)
    (fun _ h => Bool.noConfusion h)
    hstop

/-- Witness for C2: with `silence_timeout = min_speech_duration = 0.05` s,
a speech frame at t = 1 s followed by two silent frames soft-stops at
t = 1.06 s with a 3-frame buffer of duration 0.09 s ≥ 0.05 s. -/
theorem c2_soft_stop_min_witness :
    c2softCfg.min_speech_duration ≤
      ((sttRun c2softCfg (contig 1 (3/100) [true, false, false])).frames.length : ℚ)
        * (3/100) :=
  c2_soft_stop_min c2softCfg 1 (3/100) [true, false, false]
    (by norm_num) (by decide)

theorem wakeStep_events_inv (cfg : WakeCfg) (hd : 0 ≤ cfg.cooldown_duration)
    (s : WakeState) (f : WakeFrame)
    (hp : (s.events.map Prod.fst).Pairwise
      (fun a b => a + cfg.cooldown_duration ≤ b))
    (hb : ∀ t ∈ s.events.map Prod.fst,
      t + cfg.cooldown_duration ≤ s.cooldown_end) :
    ((wakeStep cfg s f).events.map Prod.fst).Pairwise
      (fun a b => a + cfg.cooldown_duration ≤ b) ∧
    ∀ t ∈ (wakeStep cfg s f).events.map Prod.fst,
      t + cfg.cooldown_duration ≤ (wakeStep cfg s f).cooldown_end := by
  simp only [wakeStep]
  split_ifs with h1 h2 h3
  · exact ⟨hp, hb⟩
  · dsimp only
    constructor
    · simp only [List.map_append, List.map_cons, List.map_nil]
      rw [List.pairwise_append]
      refine ⟨hp, List.pairwise_singleton _ _, ?_⟩
      intro a ha b hbb
      simp only [List.mem_singleton] at hbb
      subst hbb
      have := hb a ha
      have := not_lt.mp h1
      linarith
    · intro t ht
      simp only [List.map_append, List.map_cons, List.map_nil,
        List.mem_append, List.mem_singleton] at ht
      rcases ht with ht | ht
      · have := hb t ht
        have := not_lt.mp h1
        linarith
      · subst ht; linarith
  · dsimp only
    constructor
    · simp only [List.map_append, List.map_cons, List.map_nil]
      rw [List.pairwise_append]
      refine ⟨hp, List.pairwise_singleton _ _, ?_⟩
      intro a ha b hbb
      simp only [List.mem_singleton] at hbb
      subst hbb
      have := hb a ha
      have := not_lt.mp h1
      linarith
    · intro t ht
      simp only [List.map_append, List.map_cons, List.map_nil,
        List.mem_append, List.mem_singleton] at ht
      rcases ht with ht | ht
      · have := hb t ht
        have := not_lt.mp h1
        linarith
      · subst ht; linarith
  · exact ⟨hp, hb⟩

theorem wakeFold_events_inv (cfg : WakeCfg) (hd : 0 ≤ cfg.cooldown_duration) :
    ∀ (l : List WakeFrame) (s : WakeState),
      (s.events.map Prod.fst).Pairwise
        (fun a b => a + cfg.cooldown_duration ≤ b) →
      (∀ t ∈ s.events.map Prod.fst,
        t + cfg.cooldown_duration ≤ s.cooldown_end) →
      ((l.foldl (wakeStep cfg) s).events.map Prod.fst).Pairwise
        (fun a b => a + cfg.cooldown_duration ≤ b)
  | [], _, hp, _ => hp
  | f :: l, s, hp, hb => by
    have h := wakeStep_events_inv cfg hd s f hp hb
    simpa [List.foldl_cons] using
      wakeFold_events_inv cfg hd l (wakeStep cfg s f) h.1 h.2

/-- Claim C3: the trigger detector never emits an event at a time `now`
with `now < cooldown_end` (the callback leaves the state entirely
unchanged then), and in any run from the initial state any two emitted
events — of either kind, in order of emission — are at least
`cooldown_duration` apart, regardless of the input frames. -/
theorem c3_cooldown (cfg : WakeCfg) (hd : 0 ≤ cfg.cooldown_duration) :
    (∀ (s : WakeState) (f : WakeFrame), f.time < s.cooldown_end →
      wakeStep cfg s f = s) ∧
    ∀ l : List WakeFrame, ((wakeRun cfg l).events.map Prod.fst).Pairwise
      (fun a b => a + cfg.cooldown_duration ≤ b) := by
  constructor
  · intro s f h
    unfold wakeStep
    rw [if_pos h]
  · intro l
    exact wakeFold_events_inv cfg hd l wakeInit List.Pairwise.nil
      (fun t ht => absurd ht (List.not_mem_nil t))

/-- Witness for C3: a frame at t = 1 s arriving while the cooldown runs
until t = 5 s leaves the state unchanged, and the events of a concrete
20-frame run are pairwise at least 3 s apart. -/
theorem c3_cooldown_witness :
    wakeStep wakeDefaultCfg ⟨5, clapInit, 0, 0, []⟩ ⟨1, 0, none, 0⟩ =
      ⟨5, clapInit, 0, 0, []⟩ ∧
    ((wakeRun wakeDefaultCfg c7frames).events.map Prod.fst).Pairwise
      (fun a b => a + wakeDefaultCfg.cooldown_duration ≤ b) :=
  ⟨(c3_cooldown wakeDefaultCfg (by decide)).1 _ _ (by decide),
   (c3_cooldown wakeDefaultCfg (by decide)).2 c7frames⟩

/-- Claim C7: from the reset state, 20 consecutive classified-speech
frames of 30 ms each (with `min_speech_frames = 10` and the hard-coded
cumulative threshold 20) make the detector fire exactly one
sustained-speech trigger, on the 20th frame (t = 1.57 s) and not on any
earlier frame; afterwards both counters are 0 and the cooldown is set to
`1.57 + 3 = 4.57` s.  Moreover, whenever the sustained-speech matcher
processes a frame classified as non-speech, both counters reset to 0. -/
theorem c7_sustained :
    (wakeRun wakeDefaultCfg c7frames).events = [(157/100, TrigMethod.speech)] ∧
    (wakeRun wakeDefaultCfg c7frames).consec = 0 ∧
    (wakeRun wakeDefaultCfg c7frames).cum = 0 ∧
    (wakeRun wakeDefaultCfg c7frames).cooldown_end = 457/100 ∧
    (∀ k, k < 20 → (wakeRun wakeDefaultCfg (c7frames.take k)).events = []) ∧
    (∀ (consec cum : ℕ) (vad : Option Bool) (energy : ℚ),
      wakeIsSpeech wakeDefaultCfg vad energy = false →
      detectPhrase wakeDefaultCfg consec cum vad energy = (0, 0, false)) := by
  refine ⟨by decide, by decide, by decide, by decide, by decide,
    fun consec cum vad energy h => ?_⟩
  unfold detectPhrase
  rw [h]
  simp

/-- Witness for C7: after only 5 of the 20 speech frames no event has
fired, and a silent frame (VAD verdict `some false`, energy 0) resets the
counters from (3, 7) to (0, 0). -/
theorem c7_sustained_witness :
    (wakeRun wakeDefaultCfg (c7frames.take 5)).events = [] ∧
    detectPhrase wakeDefaultCfg 3 7 (some false) 0 = (0, 0, false) :=
  ⟨c7_sustained.2.2.2.2.1 5 (by norm_num),
   c7_sustained.2.2.2.2.2 3 7 (some false) 0 (by decide)⟩

theorem wakeStep_counters (cfg : WakeCfg) (s : WakeState) (f : WakeFrame)
    (h : s.consec = s.cum) :
    (wakeStep cfg s f).consec = (wakeStep cfg s f).cum := by
  simp only [wakeStep]
  split_ifs with h1 h2 h3
  · exact h
  · exact h
  · rfl
  · simp only [detectPhrase]
    split_ifs with h4
    · simp [h]
    · rfl

theorem wakeFold_counters (cfg : WakeCfg) :
    ∀ (l : List WakeFrame) (s : WakeState), s.consec = s.cum →
      (l.foldl (wakeStep cfg) s).consec = (l.foldl (wakeStep cfg) s).cum
  | [], _, h => h
  | f :: l, s, h => by
    simpa [List.foldl_cons] using
      wakeFold_counters cfg l (wakeStep cfg s f) (wakeStep_counters cfg s f h)

/-- Claim C10: in every state reachable from the initial one the
consecutive-speech counter equals the cumulative-speech counter (both are
incremented together on speech frames and zeroed together on non-speech
frames and on every fired trigger), and on such states the two-stage fire
condition of `_detect_phrase` collapses to the single condition that the
cumulative counter reaches its threshold 20 (since
`min_speech_frames ≤ 20`). -/
theorem c10_counters (cfg : WakeCfg) (hmin : cfg.min_speech_frames ≤ 20) :
    (∀ l : List WakeFrame,
      (wakeRun cfg l).consec = (wakeRun cfg l).cum) ∧
    ∀ (n : ℕ) (vad : Option Bool) (energy : ℚ),
      ((detectPhrase cfg n n vad energy).2.2 = true ↔
        (wakeIsSpeech cfg vad energy = true ∧ 20 ≤ n + 1)) := by
  constructor
  · intro l
    exact wakeFold_counters cfg l wakeInit rfl
  · intro n vad energy
    unfold detectPhrase
    split_ifs with h
    · simp only [h, true_and, Bool.and_eq_true, decide_eq_true_eq]
      omega
    · simp [h]

/-- Witness for C10: the counters agree after the concrete 20-frame run,
and with equal counters at 19 the next speech frame fires exactly because
the cumulative counter reaches 20. -/
theorem c10_counters_witness :
    (wakeRun wakeDefaultCfg c7frames).consec =
      (wakeRun wakeDefaultCfg c7frames).cum ∧
    ((detectPhrase wakeDefaultCfg 19 19 (some true) 0).2.2 = true ↔
      (wakeIsSpeech wakeDefaultCfg (some true) 0 = true ∧ 20 ≤ 19 + 1)) :=
  ⟨(c10_counters wakeDefaultCfg (by decide)).1 c7frames,
   (c10_counters wakeDefaultCfg (by decide)).2 19 (some true) 0⟩

/-- Claim C5 is false at the window boundary (counterexample): two
qualifying clap spans of duration 0.1 s each, with end times 1.1 s and
2.1 s separated by a gap of exactly `max_clap_gap = 1.0` s (so gap ≤
`max_clap_gap` as the claim requires) and no other supra-threshold
activity, produce no fire at all: the pruning step keeps only entries
strictly newer than `now - max_clap_gap`, so the first clap is dropped
and only the second remains in the history. -/
theorem c5_gap_boundary :
    (runClaps wakeDefaultCfg clapInit c5exFrames).2 = 0 ∧
    (runClaps wakeDefaultCfg clapInit c5exFrames).1.clap_history = [21/10] := by
  decide

/-- Claim C5 (amended): for every frame sequence consisting of two
impulsive spans, each of duration within
`[clap_min_duration, clap_max_duration]`, whose end times are separated
by a gap strictly less than `max_clap_gap`, surrounded by sub-threshold
frames and with no other supra-threshold activity, the clap matcher fires
exactly once — at the end of the second span — and clears the clap
history, so a further spurious spike (`spike3`, ended by a quiet frame
`e₃`) cannot re-trigger without a fresh qualifying pair. -/
theorem c5_two_claps (cfg : WakeCfg)
    (pre mid mid2 spike3 arest brest : List (ℚ × ℚ)) (a b e₁ e₂ e₃ : ℚ × ℚ)
    (hgap0 : 0 < cfg.max_clap_gap)
    (hpre : ∀ f ∈ pre, f.2 ≤ cfg.clap_threshold)
    (hA : ∀ f ∈ a :: arest, cfg.clap_threshold < f.2)
    (he1 : e₁.2 ≤ cfg.clap_threshold)
    (hd1 : cfg.clap_min_duration ≤ e₁.1 - a.1)
    (hd1' : e₁.1 - a.1 ≤ cfg.clap_max_duration)
    (hmid : ∀ f ∈ mid, f.2 ≤ cfg.clap_threshold)
    (hB : ∀ f ∈ b :: brest, cfg.clap_threshold < f.2)
    (he2 : e₂.2 ≤ cfg.clap_threshold)
    (hd2 : cfg.clap_min_duration ≤ e₂.1 - b.1)
    (hd2' : e₂.1 - b.1 ≤ cfg.clap_max_duration)
    (hgap : e₂.1 - cfg.max_clap_gap < e₁.1)
    (hmid2 : ∀ f ∈ mid2, f.2 ≤ cfg.clap_threshold)
    (hsp3 : ∀ f ∈ spike3, cfg.clap_threshold < f.2)
    (he3 : e₃.2 ≤ cfg.clap_threshold) :
    runClaps cfg clapInit
        (pre ++ (a :: arest) ++ [e₁] ++ mid ++ (b :: brest) ++ [e₂]) =
      (⟨false, b.1, []⟩, 1) ∧
    (runClaps cfg clapInit
        (pre ++ (a :: arest) ++ [e₁] ++ mid ++ (b :: brest) ++ [e₂] ++
          mid2 ++ spike3 ++ [e₃])).2 = 1 := by
  have hpre' : runClaps cfg clapInit pre = (clapInit, 0) :=
    runClaps_quiet cfg pre clapInit rfl hpre
  have hA' : runClaps cfg clapInit (a :: arest) = (⟨true, a.1, []⟩, 0) :=
    runClaps_span cfg a arest clapInit rfl hA
  have he1' : detectClaps cfg ⟨true, a.1, []⟩ e₁.1 e₁.2 =
      (⟨false, a.1, [e₁.1]⟩, false) :=
    detectClaps_end_first cfg ⟨true, a.1, []⟩ e₁.1 e₁.2 rfl rfl he1 hd1 hd1' hgap0
  have hmid' : runClaps cfg ⟨false, a.1, [e₁.1]⟩ mid =
      (⟨false, a.1, [e₁.1]⟩, 0) :=
    runClaps_quiet cfg mid ⟨false, a.1, [e₁.1]⟩ rfl hmid
  have hB' : runClaps cfg ⟨false, a.1, [e₁.1]⟩ (b :: brest) =
      (⟨true, b.1, [e₁.1]⟩, 0) :=
    runClaps_span cfg b brest ⟨false, a.1, [e₁.1]⟩ rfl hB
  have he2' : detectClaps cfg ⟨true, b.1, [e₁.1]⟩ e₂.1 e₂.2 =
      (⟨false, b.1, []⟩, true) :=
    detectClaps_end_second cfg ⟨true, b.1, [e₁.1]⟩ e₂.1 e₂.2 e₁.1 rfl rfl he2
      hd2 hd2' hgap0 hgap
  have hfirst : runClaps cfg clapInit
      (pre ++ (a :: arest) ++ [e₁] ++ mid ++ (b :: brest) ++ [e₂]) =
      (⟨false, b.1, []⟩, 1) := by
    rw [runClaps_append cfg _ [e₂], runClaps_append cfg _ (b :: brest),
      runClaps_append cfg _ mid, runClaps_append cfg _ [e₁],
      runClaps_append cfg pre (a :: arest), hpre']
    simp only [hA', runClaps_single, he1', hmid', hB', he2']
    simp
  refine ⟨hfirst, ?_⟩
  rw [runClaps_append cfg _ [e₃], runClaps_append cfg _ spike3,
    runClaps_append cfg _ mid2, hfirst]
  have hmid2' : runClaps cfg ⟨false, b.1, []⟩ mid2 = (⟨false, b.1, []⟩, 0) :=
    runClaps_quiet cfg mid2 ⟨false, b.1, []⟩ rfl hmid2
  cases spike3 with
  | nil =>
    have he3' : detectClaps cfg ⟨false, b.1, []⟩ e₃.1 e₃.2 =
        (⟨false, b.1, []⟩, false) :=
      detectClaps_quiet cfg ⟨false, b.1, []⟩ e₃.1 e₃.2 rfl he3
    simp [hmid2', runClaps, runClaps_single, he3']
  | cons c crest =>
    have hsp3' : runClaps cfg ⟨false, b.1, []⟩ (c :: crest) =
        (⟨true, c.1, []⟩, 0) :=
      runClaps_span cfg c crest ⟨false, b.1, []⟩ rfl hsp3
    have he3' : (detectClaps cfg ⟨true, c.1, []⟩ e₃.1 e₃.2).2 = false :=
      detectClaps_end_nofire cfg ⟨true, c.1, []⟩ e₃.1 e₃.2 rfl rfl he3
    simp [hmid2', hsp3', runClaps_single, he3']

/-- Witness for C5: spans (1.0-1.1 s) and (1.3-1.4 s) with peaks 0.4,
gap 0.3 s < 1.0 s, followed by a third spike at 1.5 s ended at 1.6 s:
one fire, history cleared after the pair, and still exactly one fire
after the third spike. -/
theorem c5_two_claps_witness :
    runClaps wakeDefaultCfg clapInit
        ([] ++ ((1, 2/5) :: []) ++ [(11/10, 1/10)] ++ [] ++
          ((13/10, 2/5) :: []) ++ [(7/5, 1/10)]) =
      (⟨false, 13/10, []⟩, 1) ∧
    (runClaps wakeDefaultCfg clapInit
        ([] ++ ((1, 2/5) :: []) ++ [(11/10, 1/10)] ++ [] ++
          ((13/10, 2/5) :: []) ++ [(7/5, 1/10)] ++ [] ++
          [(3/2, 2/5)] ++ [(8/5, 1/10)])).2 = 1 :=
  c5_two_claps wakeDefaultCfg [] [] [] [(3/2, 2/5)] [] []
    (1, 2/5) (13/10, 2/5) (11/10, 1/10) (7/5, 1/10) (8/5, 1/10)
    (by decide) (by decide) (by decide) (by decide) (by decide) (by decide)
    (by decide) (by decide) (by decide) (by decide) (by decide) (by decide)
    (by decide) (by decide) (by decide)
